import Mathlib

/-!
Verification of the ALU Grade Calculator (`b.kettey-ta@alustudent.com_IL-1.py`).

Floats of the source are modelled as exact rationals (`ℚ`); Python `dict`s
(which preserve insertion order) are modelled as ordered association lists.
Fallible operations (those that may raise `ValueError`) return an explicit
outcome alongside the post-call object state, because Python exceptions
raised after a mutation leave the mutated object observable.
-/

namespace GradeCalc

/-- A grade band, as stored in `GradingScale.scale` values:
`{'min': ..., 'max': ..., 'gpa': ...}`. -/
structure Band where
  min : ℚ
  max : ℚ
  gpa : ℚ
deriving DecidableEq, Repr

/-- The `GradingScale` object's state: the `scale` dict (an insertion-ordered
mapping from letter to band), `max_gpa`, and `passing_threshold`. -/
structure GradingScale where
  scale : List (String × Band)
  max_gpa : ℚ
  passing_threshold : ℚ
deriving DecidableEq, Repr

/-- The default ALU grading scale built by `GradingScale.__init__`,
in the source's insertion order. -/
def defaultScale : GradingScale :=
  { scale :=
      [ ("A+", ⟨98, 100, 5.0⟩)
      , ("A",  ⟨89.99, 97.00, 4.8⟩)
      , ("A-", ⟨80, 96.99, 4.7⟩)
      , ("B+", ⟨75, 79.99, 4.3⟩)
      , ("B",  ⟨70, 74.99, 4.0⟩)
      , ("B-", ⟨65, 69.99, 3.7⟩)
      , ("C+", ⟨60, 64.99, 3.3⟩)
      , ("C",  ⟨55, 59.99, 3.0⟩)
      , ("C-", ⟨50, 54.99, 2.7⟩)
      , ("D",  ⟨40, 49.99, 2.0⟩)
      , ("F",  ⟨0, 39.99, 1.0⟩) ]
  , max_gpa := 5.0
  , passing_threshold := 50.0 }

/-- Outcome of `_validate_scale`: `ok` (returns normally), `invalid`
(raises `ValueError` on a per-band violation), or `crash` (the uncaught
`IndexError` from `all_ranges[0]` when the scale dict is empty). -/
inductive VOutcome where
  | ok
  | invalid
  | crash
deriving DecidableEq, Repr

/-- `GradingScale._validate_scale`: per-band it requires `min <= max` and
`0 <= gpa <= max_gpa`, raising `ValueError` at the first violation; with an
empty scale the subsequent `all_ranges[0]` access raises `IndexError`.
(The coverage check only prints a warning, which does not affect state.) -/
def validate_scale (gs : GradingScale) : VOutcome :=
  if gs.scale.all fun lb =>
      decide (lb.2.min ≤ lb.2.max) &&
      decide (0 ≤ lb.2.gpa) && decide (lb.2.gpa ≤ gs.max_gpa) then
    if gs.scale.isEmpty then .crash else .ok
  else .invalid

/-- Python dict assignment `self.scale[letter] = band`: replaces the value in
place when the key exists (keeping its position), otherwise appends. -/
def upsert : List (String × Band) → String → Band → List (String × Band)
  | [], letter, b => [(letter, b)]
  | (l0, b0) :: rest, letter, b =>
      if l0 = letter then (letter, b) :: rest
      else (l0, b0) :: upsert rest letter b

/-- `GradingScale.update_grade`: stores the new band in the dict FIRST, then
runs `_validate_scale`. Returns the post-call object state together with the
validation outcome (the state is mutated even when validation raises). -/
def update_grade (gs : GradingScale) (letter : String)
    (min_score max_score gpa : ℚ) : GradingScale × VOutcome :=
  let gs' := { gs with scale := upsert gs.scale letter ⟨min_score, max_score, gpa⟩ }
  (gs', validate_scale gs')

/-- Scan of `percentage_to_grade`'s `for letter, data in self.scale.items()`
loop: first band (in storage order) whose `[min, max]` contains `p`. -/
def findBand : List (String × Band) → ℚ → Option (ℚ × String)
  | [], _ => none
  | (letter, d) :: rest, p =>
      if d.min ≤ p ∧ p ≤ d.max then some (d.gpa, letter)
      else findBand rest p

/-- `GradingScale.percentage_to_grade`: clamps to `[0, 100]`, returns the
first matching band's `(gpa, letter)`, else the fallback `(1.0, 'F')`
(after printing a warning; it never raises). -/
def percentage_to_grade (gs : GradingScale) (percentage : ℚ) : ℚ × String :=
  let p := max 0 (min 100 percentage)
  match findBand gs.scale p with
  | some gl => gl
  | none => (1.0, "F")

/-- A raw band object as parsed from JSON: each of the three required keys
may be present or missing. -/
structure RawBand where
  min : Option ℚ
  max : Option ℚ
  gpa : Option ℚ
deriving DecidableEq, Repr

/-- Input to `import_scale`: either text that fails `json.loads`
(`malformed`), or a parsed ordered object keyed by letter. -/
inductive ImportInput where
  | malformed
  | parsed (bands : List (String × RawBand))
deriving DecidableEq, Repr

/-- Outcome of `import_scale`: `success` (prints success), `reportedError`
(exception caught and printed, non-fatal), or `escapedException`
(an exception not caught by the `except` clause propagates). -/
inductive ImportOutcome where
  | success
  | reportedError
  | escapedException
deriving DecidableEq, Repr

/-- The structural check of `import_scale`: every band object carries the
keys `min`, `max` and `gpa`. -/
def structOk (bands : List (String × RawBand)) : Bool :=
  bands.all fun lr => lr.2.min.isSome && lr.2.max.isSome && lr.2.gpa.isSome

/-- Extraction of the numeric fields once the structural check passed. -/
def extractBands (bands : List (String × RawBand)) : List (String × Band) :=
  bands.map fun lr => (lr.1, ⟨lr.2.min.getD 0, lr.2.max.getD 0, lr.2.gpa.getD 0⟩)

/-- `GradingScale.import_scale`: parse, check structure, then ASSIGN
`self.scale = imported_scale` and only afterwards run `_validate_scale`.
`json.JSONDecodeError` and `ValueError` are caught and printed (the scale is
left as it is at that point — already replaced when validation raised);
other exceptions escape. Returns post-call state and outcome. -/
def import_scale (gs : GradingScale) : ImportInput → GradingScale × ImportOutcome
  | .malformed => (gs, .reportedError)
  | .parsed bands =>
      if structOk bands then
        let gs' := { gs with scale := extractBands bands }
        match validate_scale gs' with
        | .ok => (gs', .success)
        | .invalid => (gs', .reportedError)
        | .crash => (gs', .escapedException)
      else (gs, .reportedError)

/-- An `Assignment` object's fields after successful construction.
`points` is stored (recomputed on updates), so it is carried explicitly. -/
structure Assignment where
  name : String
  weight : ℚ
  grade : ℚ
  points : ℚ
deriving DecidableEq, Repr

/-- Python's `str.strip()`: drop leading and trailing whitespace. -/
def strip (s : String) : String :=
  String.mk (((s.data.dropWhile Char.isWhitespace).reverse.dropWhile
    Char.isWhitespace).reverse)

/-- `Assignment._validate_name`: requires a string that is non-empty after
stripping whitespace; returns the stripped name. (No alphabetic-content
check exists here — that lives only in the interactive input helpers.) -/
def validate_name (name : String) : Except String String :=
  if strip name = "" then .error "Assignment name must be a non-empty string"
  else .ok (strip name)

/-- `Assignment._validate_weight`: requires `0 < weight <= 100`. -/
def validate_weight (weight : ℚ) : Except String ℚ :=
  if weight ≤ 0 ∨ weight > 100 then .error "Weight must be between 0 and 100"
  else .ok weight

/-- `Assignment._validate_grade`: requires `0 <= grade <= 100`. -/
def validate_grade (grade : ℚ) : Except String ℚ :=
  if grade < 0 ∨ grade > 100 then .error "Grade must be between 0 and 100"
  else .ok grade

/-- `Assignment.calculate_points`: `(grade * weight) / 100.0`. -/
def calculate_points (grade weight : ℚ) : ℚ := grade * weight / 100

/-- `Assignment.__init__`: validates name, then weight, then grade (raising
`ValueError` at the first failure, so no object is produced), then stores
the computed `points`. -/
def Assignment.make (name : String) (weight grade : ℚ) : Except String Assignment :=
  match validate_name name with
  | .error e => .error e
  | .ok n =>
    match validate_weight weight with
    | .error e => .error e
    | .ok w =>
      match validate_grade grade with
      | .error e => .error e
      | .ok g => .ok ⟨n, w, g, calculate_points g w⟩

/-- `True` exactly when an `Except`-modelled constructor returned normally. -/
def succeeds {ε α : Type} : Except ε α → Bool
  | .ok _ => true
  | .error _ => false

/-- The dict returned by `GPACalculator.calculate_category_gpa`. -/
structure CategoryResult where
  total_percentage : ℚ
  gpa : ℚ
  letter_grade : String
  total_weight : ℚ
  weighted_points : ℚ
deriving DecidableEq, Repr

/-- `GPACalculator.calculate_category_gpa`: empty input gives the zero
result with letter `N/A`; otherwise sum stored `points` and `weight`,
divide (guarding `total_weight == 0`), scale by 100, clamp to `[0, 100]`,
and resolve `(gpa, letter)` through the grading scale. -/
def calculate_category_gpa (gs : GradingScale) (assignments : List Assignment) :
    CategoryResult :=
  if assignments.isEmpty then
    { total_percentage := 0, gpa := 0, letter_grade := "N/A"
      total_weight := 0, weighted_points := 0 }
  else
    let total_points := (assignments.map Assignment.points).sum
    let total_weight := (assignments.map Assignment.weight).sum
    let percentage : ℚ := if total_weight = 0 then 0 else total_points / total_weight * 100
    let clamped := max 0 (min 100 percentage)
    let gl := percentage_to_grade gs clamped
    { total_percentage := clamped, gpa := gl.1, letter_grade := gl.2
      total_weight := total_weight, weighted_points := total_points }

/-- The dict returned by `GPACalculator.calculate_overall_gpa`. -/
structure OverallResult where
  overall_percentage : ℚ
  overall_gpa : ℚ
  overall_letter : String
  fa_data : CategoryResult
  sa_data : CategoryResult
deriving DecidableEq, Repr

/-- `GPACalculator.calculate_overall_gpa`: both category percentages zero
gives 0; exactly one zero passes the other through; otherwise the
unweighted mean; then the overall `(gpa, letter)` via the scale. -/
def calculate_overall_gpa (gs : GradingScale) (fa_result sa_result : CategoryResult) :
    OverallResult :=
  let fa_percentage := fa_result.total_percentage
  let sa_percentage := sa_result.total_percentage
  let overall_percentage : ℚ :=
    if fa_percentage = 0 ∧ sa_percentage = 0 then 0
    else if fa_percentage = 0 then sa_percentage
    else if sa_percentage = 0 then fa_percentage
    else (fa_percentage + sa_percentage) / 2
  let gl := percentage_to_grade gs overall_percentage
  { overall_percentage := overall_percentage, overall_gpa := gl.1
    overall_letter := gl.2, fa_data := fa_result, sa_data := sa_result }

/-- `Assignment.update_weight` restricted to the successful case: stores the
new weight and recomputes `points` from the current grade. Used to express
uniform weight scaling of an assignment list. -/
def update_weight_ok (a : Assignment) (new_weight : ℚ) : Assignment :=
  { a with weight := new_weight, points := calculate_points a.grade new_weight }

/-! ### General lemmas about the embedded operations -/

/-- `findBand` misses exactly when no band's range contains `p`. -/
theorem findBand_eq_none_iff (l : List (String × Band)) (p : ℚ) :
    findBand l p = none ↔ ∀ lb ∈ l, ¬(lb.2.min ≤ p ∧ p ≤ lb.2.max) := by
  induction l with
  | nil => simp [findBand]
  | cons hd tl ih =>
    obtain ⟨letter, d⟩ := hd
    by_cases h : d.min ≤ p ∧ p ≤ d.max
    · simp [findBand, h]
    · simp only [findBand, if_neg h, ih]
      constructor
      · intro hall lb hmem
        rcases List.mem_cons.mp hmem with rfl | hmem
        · exact h
        · exact hall lb hmem
      · intro hall lb hmem
        exact hall lb (List.mem_cons_of_mem _ hmem)

/-- A `findBand` hit returns the `(gpa, letter)` of a band of the list whose
range contains `p`. -/
theorem findBand_some_mem (l : List (String × Band)) (p : ℚ) (r : ℚ × String)
    (h : findBand l p = some r) :
    ∃ lb ∈ l, r = (lb.2.gpa, lb.1) ∧ lb.2.min ≤ p ∧ p ≤ lb.2.max := by
  induction l with
  | nil => simp [findBand] at h
  | cons hd tl ih =>
    obtain ⟨letter, d⟩ := hd
    by_cases hc : d.min ≤ p ∧ p ≤ d.max
    · simp only [findBand, if_pos hc, Option.some.injEq] at h
      exact ⟨(letter, d), by simp, by simp [← h, hc.1, hc.2]⟩
    · simp only [findBand, if_neg hc] at h
      obtain ⟨lb, hmem, hrest⟩ := ih h
      exact ⟨lb, by simp [hmem], hrest⟩

/-- Clamping is the identity on `[0, 100]`. -/
theorem clamp_eq_self {p : ℚ} (h0 : 0 ≤ p) (h1 : p ≤ 100) :
    max 0 (min 100 p) = p := by
  rw [min_eq_right h1, max_eq_right h0]

/-- The clamped value always lies in `[0, 100]`. -/
theorem clamp_mem_range (p : ℚ) :
    0 ≤ max 0 (min 100 p) ∧ max 0 (min 100 p) ≤ 100 :=
  ⟨le_max_left 0 _, max_le (by norm_num) (min_le_left 100 p)⟩

/-- Congruence for sums over a mapped list. -/
theorem sum_map_eq_of_forall_eq (l : List Assignment) (f g : Assignment → ℚ)
    (h : ∀ a ∈ l, f a = g a) : (l.map f).sum = (l.map g).sum := by
  induction l with
  | nil => simp
  | cons hd tl ih =>
    simp only [List.map_cons, List.sum_cons]
    rw [h hd (by simp), ih fun a ha => h a (by simp [ha])]

/-- A constant factor moves out of a mapped sum. -/
theorem sum_map_mul_const (k : ℚ) (l : List Assignment) (f : Assignment → ℚ) :
    (l.map fun a => k * f a).sum = k * (l.map f).sum := by
  induction l with
  | nil => simp
  | cons hd tl ih => simp [ih]; ring

/-- A successful `_validate_name` means the stripped name was non-empty and
is what got stored. -/
theorem validate_name_ok {name n : String} (h : validate_name name = .ok n) :
    strip name ≠ "" ∧ n = strip name := by
  unfold validate_name at h
  by_cases hc : strip name = ""
  · simp [hc] at h
  · simp [hc] at h
    exact ⟨hc, h.symm⟩

/-- A successful `_validate_weight` means the weight is in `(0, 100]`. -/
theorem validate_weight_ok {w w' : ℚ} (h : validate_weight w = .ok w') :
    0 < w' ∧ w' ≤ 100 ∧ w' = w := by
  unfold validate_weight at h
  by_cases hc : w ≤ 0 ∨ w > 100
  · simp [hc] at h
  · simp [hc] at h
    push_neg at hc
    subst h
    exact ⟨hc.1, hc.2, rfl⟩

/-- A successful `_validate_grade` means the grade is in `[0, 100]`. -/
theorem validate_grade_ok {g g' : ℚ} (h : validate_grade g = .ok g') :
    0 ≤ g' ∧ g' ≤ 100 ∧ g' = g := by
  unfold validate_grade at h
  by_cases hc : g < 0 ∨ g > 100
  · simp [hc] at h
  · simp [hc] at h
    push_neg at hc
    subst h
    exact ⟨hc.1, hc.2, rfl⟩

/-- For percentages in `[0, 100]` on which some band matches,
`percentage_to_grade` returns the data of a band containing the value. -/
theorem percentage_to_grade_mem (gs : GradingScale) (p : ℚ)
    (h0 : 0 ≤ p) (h1 : p ≤ 100)
    (hcov : ∃ lb ∈ gs.scale, lb.2.min ≤ p ∧ p ≤ lb.2.max) :
    ∃ lb ∈ gs.scale,
      percentage_to_grade gs p = (lb.2.gpa, lb.1) ∧ lb.2.min ≤ p ∧ p ≤ lb.2.max := by
  unfold percentage_to_grade
  rw [clamp_eq_self h0 h1]
  cases hfb : findBand gs.scale p with
  | none =>
    rw [findBand_eq_none_iff] at hfb
    obtain ⟨lb, hmem, hin⟩ := hcov
    exact absurd hin (hfb lb hmem)
  | some r =>
    obtain ⟨lb, hmem, hr, hin⟩ := findBand_some_mem gs.scale p r hfb
    refine ⟨lb, hmem, ?_, hin⟩
    simp only [hfb, hr]

/-! ### Claim theorems -/

/-- Claim C1, counterexample: the claim "for every percentage p in [0,100]
... there exists a band with min <= p <= max" is false at p = 97.5. The
default scale has a gap between the `A` band (max 97.00) and the `A+` band
(min 98): no band contains 97.5, and `percentage_to_grade` takes the
fallback `(1.0, 'F')`, whose `F` band (0 to 39.99) does not contain 97.5
either. -/
theorem C1_counterexample :
    (0 : ℚ) ≤ 195 / 2 ∧ (195 / 2 : ℚ) ≤ 100 ∧
    (∀ lb ∈ defaultScale.scale,
      ¬(lb.2.min ≤ (195 / 2 : ℚ) ∧ (195 / 2 : ℚ) ≤ lb.2.max)) ∧
    percentage_to_grade defaultScale (195 / 2) = (1.0, "F") :=
  ⟨by norm_num, by norm_num,
   by simp only [defaultScale]; simp; norm_num,
   by norm_num [percentage_to_grade, findBand, defaultScale]⟩

/-- Claim C1, amended: for every percentage p in [0,100] that lies in at
least one band of the default scale, `percentage_to_grade p` returns the
`(gpa, letter)` of a band whose range contains p. (The default scale is not
gap-free: 97.5 lies in no band, so the unconditional claim fails.) -/
theorem C1_grade_of_covered_percentage (p : ℚ) (h0 : 0 ≤ p) (h1 : p ≤ 100)
    (hcov : ∃ lb ∈ defaultScale.scale, lb.2.min ≤ p ∧ p ≤ lb.2.max) :
    ∃ lb ∈ defaultScale.scale,
      percentage_to_grade defaultScale p = (lb.2.gpa, lb.1) ∧
      lb.2.min ≤ p ∧ p ≤ lb.2.max :=
  percentage_to_grade_mem defaultScale p h0 h1 hcov

/-- Claim C1, witness: the amended theorem applied at p = 70 (contained in
the `B` band). -/
theorem C1_witness :
    ∃ lb ∈ defaultScale.scale,
      percentage_to_grade defaultScale 70 = (lb.2.gpa, lb.1) ∧
      lb.2.min ≤ (70 : ℚ) ∧ (70 : ℚ) ≤ lb.2.max :=
  C1_grade_of_covered_percentage 70 (by norm_num) (by norm_num)
    ⟨("B", ⟨70, 74.99, 4.0⟩), by simp [defaultScale], by norm_num, by norm_num⟩

/-- Claim C2 describes intended behavior the code does not have
(`update_grade` writes the new band into the dict BEFORE re-validating):
after the valid update `update_grade('A+', 98, 100, 5.0)`, the invalid
update `update_grade('A+', 50, 40, 5.0)` raises a validation error
(min > max) but leaves the stored `A+` band as the invalid (50, 40, 5.0)
instead of the prior valid (98, 100, 5.0). -/
theorem C2_update_grade_corrupts_prior_band :
    (update_grade defaultScale "A+" 98 100 5.0).2 = .ok ∧
    (update_grade (update_grade defaultScale "A+" 98 100 5.0).1
      "A+" 50 40 5.0).2 = .invalid ∧
    ((update_grade (update_grade defaultScale "A+" 98 100 5.0).1
      "A+" 50 40 5.0).1).scale.lookup "A+" = some ⟨50, 40, 5.0⟩ ∧
    ((update_grade (update_grade defaultScale "A+" 98 100 5.0).1
      "A+" 50 40 5.0).1).scale.lookup "A+" ≠ some ⟨98, 100, 5.0⟩ := by
  refine ⟨?_, ?_, ?_, ?_⟩
  · norm_num [update_grade, upsert, validate_scale, defaultScale]
  · norm_num [update_grade, upsert, validate_scale, defaultScale]
  · norm_num [update_grade, upsert, defaultScale, List.lookup]
  · norm_num [update_grade, upsert, defaultScale, List.lookup]

/-- Claim C3 describes intended behavior the code does not have
(`import_scale` assigns `self.scale = imported_scale` BEFORE running
`_validate_scale`): importing a structurally well-formed band set that
fails range validation (here `{"A": {"min": 50, "max": 40, "gpa": 1}}`,
min > max) reports the error non-fatally but leaves the scale replaced by
the invalid data instead of the previous scale. -/
theorem C3_import_scale_not_atomic :
    (import_scale defaultScale
      (.parsed [("A", ⟨some 50, some 40, some 1⟩)])).2 = .reportedError ∧
    (import_scale defaultScale
      (.parsed [("A", ⟨some 50, some 40, some 1⟩)])).1.scale
      = [("A", ⟨50, 40, 1⟩)] ∧
    [("A", (⟨50, 40, 1⟩ : Band))] ≠ defaultScale.scale := by
  refine ⟨?_, ?_, ?_⟩
  · norm_num [import_scale, structOk, extractBands, validate_scale]
  · norm_num [import_scale, structOk, extractBands, validate_scale]
  · simp [defaultScale]

/-- Claim C4, counterexample: the claim "construction with name '123'
(purely numeric) fails with a validation error" is false —
`Assignment._validate_name` only requires a non-empty string after
stripping, so `Assignment('123', 50, 80)` constructs successfully (the
purely-numeric rejection exists only in the interactive input helper, not
in the constructor). -/
theorem C4_counterexample : succeeds (Assignment.make "123" 50 80) = true := by
  decide

/-- Claim C4, amended: construction with weight 0 or weight 150 fails with
a validation error (for any name and grade); construction with name "Q1"
succeeds; construction with name "123" also succeeds, since the
constructor does not reject purely-numeric names; whitespace-only names
fail; and a successful construction implies every stored field passed its
validation, while a failed one yields no Assignment object. -/
theorem C4_assignment_validation :
    (∀ (name : String) (grade : ℚ), succeeds (Assignment.make name 0 grade) = false) ∧
    (∀ (name : String) (grade : ℚ), succeeds (Assignment.make name 150 grade) = false) ∧
    succeeds (Assignment.make "Q1" 10 80) = true ∧
    succeeds (Assignment.make "123" 10 80) = true ∧
    succeeds (Assignment.make "   " 10 80) = false ∧
    (∀ (name : String) (weight grade : ℚ) (a : Assignment),
      Assignment.make name weight grade = .ok a →
      strip name ≠ "" ∧ a.name = strip name ∧
      0 < a.weight ∧ a.weight ≤ 100 ∧ 0 ≤ a.grade ∧ a.grade ≤ 100 ∧
      a.points = calculate_points a.grade a.weight) := by
  refine ⟨?_, ?_, by decide, by decide, by decide, ?_⟩
  · intro name grade
    simp only [Assignment.make]
    cases validate_name name with
    | error e => simp [succeeds]
    | ok n => norm_num [validate_weight, succeeds]
  · intro name grade
    simp only [Assignment.make]
    cases validate_name name with
    | error e => simp [succeeds]
    | ok n => norm_num [validate_weight, succeeds]
  · intro name weight grade a hmk
    simp only [Assignment.make] at hmk
    cases hvn : validate_name name with
    | error e => rw [hvn] at hmk; exact absurd hmk (by simp)
    | ok n =>
      rw [hvn] at hmk
      cases hvw : validate_weight weight with
      | error e => rw [hvw] at hmk; exact absurd hmk (by simp)
      | ok w =>
        rw [hvw] at hmk
        cases hvg : validate_grade grade with
        | error e => rw [hvg] at hmk; exact absurd hmk (by simp)
        | ok g =>
          rw [hvg] at hmk
          injection hmk with ha
          subst ha
          obtain ⟨hn1, hn2⟩ := validate_name_ok hvn
          obtain ⟨hw1, hw2, _⟩ := validate_weight_ok hvw
          obtain ⟨hg1, hg2, _⟩ := validate_grade_ok hvg
          exact ⟨hn1, hn2, hw1, hw2, hg1, hg2, rfl⟩

/-- Claim C4, witness: the field-validation clause of the amended theorem
applied to the successful construction of `Assignment('Q1', 10, 80)`. -/
theorem C4_witness :
    strip "Q1" ≠ "" ∧ (⟨"Q1", 10, 80, 8⟩ : Assignment).name = strip "Q1" ∧
    (0 : ℚ) < (⟨"Q1", 10, 80, 8⟩ : Assignment).weight ∧
    (⟨"Q1", 10, 80, 8⟩ : Assignment).weight ≤ 100 ∧
    (0 : ℚ) ≤ (⟨"Q1", 10, 80, 8⟩ : Assignment).grade ∧
    (⟨"Q1", 10, 80, 8⟩ : Assignment).grade ≤ 100 ∧
    (⟨"Q1", 10, 80, 8⟩ : Assignment).points
      = calculate_points (⟨"Q1", 10, 80, 8⟩ : Assignment).grade
          (⟨"Q1", 10, 80, 8⟩ : Assignment).weight :=
  C4_assignment_validation.2.2.2.2.2 "Q1" 10 80 ⟨"Q1", 10, 80, 8⟩
    (by
      have hQ : strip "Q1" = "Q1" := by decide
      norm_num [Assignment.make, validate_name, validate_weight,
        validate_grade, calculate_points, hQ]
      rw [if_neg (by decide : ¬("Q1" = ""))])

/-- Claim C5: `calculate_overall_gpa` combines two category results by the
zero / pass-through / unweighted-mean rule; concretely FA=80 with SA=60
gives overall 70, mapped by the default scale to letter B with gpa 4.0,
and FA=80 with an absent (empty) SA category gives overall 80. -/
theorem C5_overall_combination :
    (∀ (gs : GradingScale) (fa sa : CategoryResult),
      (calculate_overall_gpa gs fa sa).overall_percentage =
        if fa.total_percentage = 0 ∧ sa.total_percentage = 0 then 0
        else if fa.total_percentage = 0 then sa.total_percentage
        else if sa.total_percentage = 0 then fa.total_percentage
        else (fa.total_percentage + sa.total_percentage) / 2) ∧
    (calculate_overall_gpa defaultScale ⟨80, 4.7, "A-", 100, 80⟩
      ⟨60, 3.3, "C+", 100, 60⟩).overall_percentage = 70 ∧
    (calculate_overall_gpa defaultScale ⟨80, 4.7, "A-", 100, 80⟩
      ⟨60, 3.3, "C+", 100, 60⟩).overall_letter = "B" ∧
    (calculate_overall_gpa defaultScale ⟨80, 4.7, "A-", 100, 80⟩
      ⟨60, 3.3, "C+", 100, 60⟩).overall_gpa = 4.0 ∧
    (calculate_overall_gpa defaultScale ⟨80, 4.7, "A-", 100, 80⟩
      (calculate_category_gpa defaultScale [])).overall_percentage = 80 := by
  refine ⟨fun gs fa sa => rfl, ?_, ?_, ?_, ?_⟩
  · norm_num [calculate_overall_gpa]
  · norm_num [calculate_overall_gpa, percentage_to_grade, findBand, defaultScale]
  · norm_num [calculate_overall_gpa, percentage_to_grade, findBand, defaultScale]
  · norm_num [calculate_overall_gpa, calculate_category_gpa]

/-- Claim C6: for a non-empty assignment list (whose stored `points` agree
with their defining formula `grade * weight / 100`, as the constructor and
update operations guarantee), the category percentage is the weighted
formula `(Σ wi * gi / 100) / (Σ wi) * 100` clamped to `[0, 100]` when the
total weight is nonzero, and 0 when the total weight is zero. -/
theorem C6_category_percentage_formula (gs : GradingScale) (l : List Assignment)
    (hne : l ≠ [])
    (hpts : ∀ a ∈ l, a.points = a.grade * a.weight / 100) :
    (calculate_category_gpa gs l).total_percentage =
      if (l.map Assignment.weight).sum = 0 then 0
      else max 0 (min 100
        ((l.map fun a => a.weight * a.grade / 100).sum
          / (l.map Assignment.weight).sum * 100)) := by
  have hE : l.isEmpty = false := by
    cases l with
    | nil => exact absurd rfl hne
    | cons a t => rfl
  have hsum : (l.map Assignment.points).sum
      = (l.map fun a => a.weight * a.grade / 100).sum :=
    sum_map_eq_of_forall_eq l _ _ fun a ha => by rw [hpts a ha]; ring
  simp only [calculate_category_gpa, hE, Bool.false_eq_true, if_false]
  by_cases hw : (l.map Assignment.weight).sum = 0
  · simp [hw]
  · simp only [hw, if_false, if_neg hw, hsum]

/-- Claim C6, witness: the formula evaluated on the two-assignment list
Q1 (weight 10, grade 80) and Q2 (weight 30, grade 60). -/
theorem C6_witness :
    ([⟨"Q1", 10, 80, 8⟩, ⟨"Q2", 30, 60, 18⟩] : List Assignment) ≠ [] ∧
    (∀ a ∈ ([⟨"Q1", 10, 80, 8⟩, ⟨"Q2", 30, 60, 18⟩] : List Assignment),
      a.points = a.grade * a.weight / 100) ∧
    (calculate_category_gpa defaultScale
      [⟨"Q1", 10, 80, 8⟩, ⟨"Q2", 30, 60, 18⟩]).total_percentage =
      if (([⟨"Q1", 10, 80, 8⟩, ⟨"Q2", 30, 60, 18⟩] : List Assignment).map
          Assignment.weight).sum = 0 then 0
      else max 0 (min 100
        ((([⟨"Q1", 10, 80, 8⟩, ⟨"Q2", 30, 60, 18⟩] : List Assignment).map
            fun a => a.weight * a.grade / 100).sum
          / (([⟨"Q1", 10, 80, 8⟩, ⟨"Q2", 30, 60, 18⟩] : List Assignment).map
              Assignment.weight).sum * 100)) :=
  ⟨by simp, by norm_num,
   C6_category_percentage_formula defaultScale _ (by simp) (by norm_num)⟩

/-- Claim C7: the empty assignment collection yields exactly the
zero-valued category result with letter `N/A`. -/
theorem C7_empty_category (gs : GradingScale) :
    calculate_category_gpa gs [] =
      { total_percentage := 0, gpa := 0, letter_grade := "N/A",
        total_weight := 0, weighted_points := 0 } := rfl

/-- Claim C8: `percentage_to_grade` first clamps its input to `[0, 100]`
(the result at `p` equals the result at the clamped value), and when no
band of the scale contains the clamped value it returns the fallback
`(1.0, 'F')` — it is a total function, so no exception is possible. -/
theorem C8_clamp_and_fallback (gs : GradingScale) (p : ℚ) :
    percentage_to_grade gs p
      = percentage_to_grade gs (max 0 (min 100 p)) ∧
    ((∀ lb ∈ gs.scale,
        ¬(lb.2.min ≤ max 0 (min 100 p) ∧ max 0 (min 100 p) ≤ lb.2.max)) →
      percentage_to_grade gs p = (1.0, "F")) := by
  have hc := clamp_mem_range p
  have hcc : max 0 (min 100 (max 0 (min 100 p))) = max 0 (min 100 p) :=
    clamp_eq_self hc.1 hc.2
  constructor
  · simp only [percentage_to_grade, hcc]
  · intro h
    simp only [percentage_to_grade, (findBand_eq_none_iff gs.scale _).mpr h]

/-- Claim C8, witness: the fallback clause applied to the default scale at
p = 97.5, which lies in the gap between the `A` and `A+` bands. -/
theorem C8_witness :
    (∀ lb ∈ defaultScale.scale,
      ¬(lb.2.min ≤ max 0 (min 100 (195 / 2 : ℚ)) ∧
        max 0 (min 100 (195 / 2 : ℚ)) ≤ lb.2.max)) ∧
    percentage_to_grade defaultScale (195 / 2) = (1.0, "F") := by
  have hcl : max 0 (min 100 (195 / 2 : ℚ)) = 195 / 2 :=
    clamp_eq_self (by norm_num) (by norm_num)
  have h : ∀ lb ∈ defaultScale.scale,
      ¬(lb.2.min ≤ max 0 (min 100 (195 / 2 : ℚ)) ∧
        max 0 (min 100 (195 / 2 : ℚ)) ≤ lb.2.max) := by
    rw [hcl]
    simp only [defaultScale]
    simp
    norm_num
  exact ⟨h, (C8_clamp_and_fallback defaultScale (195 / 2)).2 h⟩

/-- Claim C9: `calculate_overall_gpa` is symmetric in its two category
arguments with respect to the overall percentage, gpa and letter. -/
theorem C9_overall_gpa_symmetric (gs : GradingScale) (fa sa : CategoryResult) :
    (calculate_overall_gpa gs fa sa).overall_percentage
      = (calculate_overall_gpa gs sa fa).overall_percentage ∧
    (calculate_overall_gpa gs fa sa).overall_gpa
      = (calculate_overall_gpa gs sa fa).overall_gpa ∧
    (calculate_overall_gpa gs fa sa).overall_letter
      = (calculate_overall_gpa gs sa fa).overall_letter := by
  have hp : (calculate_overall_gpa gs fa sa).overall_percentage
      = (calculate_overall_gpa gs sa fa).overall_percentage := by
    simp only [calculate_overall_gpa]
    by_cases hf : fa.total_percentage = 0 <;>
      by_cases hs : sa.total_percentage = 0 <;>
        simp [hf, hs, add_comm]
  refine ⟨hp, ?_, ?_⟩
  · show (percentage_to_grade gs
        (calculate_overall_gpa gs fa sa).overall_percentage).1
      = (percentage_to_grade gs
        (calculate_overall_gpa gs sa fa).overall_percentage).1
    rw [hp]
  · show (percentage_to_grade gs
        (calculate_overall_gpa gs fa sa).overall_percentage).2
      = (percentage_to_grade gs
        (calculate_overall_gpa gs sa fa).overall_percentage).2
    rw [hp]

/-- Claim C10: scaling every weight of a non-empty, positive-total-weight
assignment list by a factor k > 0 (each scaled weight staying in
`(0, 100]`, with `points` recomputed as on a weight update) leaves the
category percentage, gpa and letter unchanged — exact rational
arithmetic. -/
theorem C10_weight_scaling_invariant (gs : GradingScale) (l : List Assignment)
    (k : ℚ) (hne : l ≠ []) (hk : 0 < k)
    (hpts : ∀ a ∈ l, a.points = a.grade * a.weight / 100)
    (hw : 0 < (l.map Assignment.weight).sum)
    (hrange : ∀ a ∈ l, 0 < k * a.weight ∧ k * a.weight ≤ 100) :
    ((calculate_category_gpa gs
        (l.map fun a => update_weight_ok a (k * a.weight))).total_percentage
      = (calculate_category_gpa gs l).total_percentage) ∧
    ((calculate_category_gpa gs
        (l.map fun a => update_weight_ok a (k * a.weight))).gpa
      = (calculate_category_gpa gs l).gpa) ∧
    ((calculate_category_gpa gs
        (l.map fun a => update_weight_ok a (k * a.weight))).letter_grade
      = (calculate_category_gpa gs l).letter_grade) := by
  have hE : l.isEmpty = false := by
    cases l with
    | nil => exact absurd rfl hne
    | cons a t => rfl
  have hE2 : (l.map fun a => update_weight_ok a (k * a.weight)).isEmpty = false := by
    cases l with
    | nil => exact absurd rfl hne
    | cons a t => rfl
  have hkne : k ≠ 0 := ne_of_gt hk
  have hWne : (l.map Assignment.weight).sum ≠ 0 := ne_of_gt hw
  have hW2 : ((l.map fun a => update_weight_ok a (k * a.weight)).map
      Assignment.weight).sum = k * (l.map Assignment.weight).sum := by
    rw [List.map_map]
    have hco : (Assignment.weight ∘ fun a => update_weight_ok a (k * a.weight))
        = fun a => k * a.weight := rfl
    rw [hco, sum_map_mul_const]
  have hP2 : ((l.map fun a => update_weight_ok a (k * a.weight)).map
      Assignment.points).sum = k * (l.map Assignment.points).sum := by
    rw [List.map_map]
    have h1 : (l.map (Assignment.points ∘ fun a =>
        update_weight_ok a (k * a.weight))).sum
        = (l.map fun a => k * a.points).sum := by
      apply sum_map_eq_of_forall_eq
      intro a ha
      show a.grade * (k * a.weight) / 100 = k * a.points
      rw [hpts a ha]
      ring
    rw [h1, sum_map_mul_const]
  have hperc : (calculate_category_gpa gs
      (l.map fun a => update_weight_ok a (k * a.weight))).total_percentage
      = (calculate_category_gpa gs l).total_percentage := by
    simp only [calculate_category_gpa, hE, hE2, Bool.false_eq_true, if_false]
    rw [hW2, hP2, if_neg hWne, if_neg (mul_ne_zero hkne hWne),
      mul_div_mul_left _ _ hkne]
  have hgl : ∀ m : List Assignment, m.isEmpty = false →
      (calculate_category_gpa gs m).gpa
        = (percentage_to_grade gs (calculate_category_gpa gs m).total_percentage).1 ∧
      (calculate_category_gpa gs m).letter_grade
        = (percentage_to_grade gs (calculate_category_gpa gs m).total_percentage).2 := by
    intro m hm
    simp only [calculate_category_gpa, hm, Bool.false_eq_true, if_false]
    constructor <;> trivial
  obtain ⟨hg1, hl1⟩ := hgl _ hE2
  obtain ⟨hg2, hl2⟩ := hgl l hE
  refine ⟨hperc, ?_, ?_⟩
  · rw [hg1, hg2, hperc]
  · rw [hl1, hl2, hperc]

/-- Claim C10, witness: doubling the weight of the single assignment
Q1 (weight 10, grade 80) leaves the category percentage, gpa and letter
unchanged. -/
theorem C10_witness :
    ([⟨"Q1", 10, 80, 8⟩] : List Assignment) ≠ [] ∧ (0 : ℚ) < 2 ∧
    (∀ a ∈ ([⟨"Q1", 10, 80, 8⟩] : List Assignment),
      a.points = a.grade * a.weight / 100) ∧
    0 < (([⟨"Q1", 10, 80, 8⟩] : List Assignment).map Assignment.weight).sum ∧
    (∀ a ∈ ([⟨"Q1", 10, 80, 8⟩] : List Assignment),
      0 < 2 * a.weight ∧ 2 * a.weight ≤ 100) ∧
    ((calculate_category_gpa defaultScale
        (([⟨"Q1", 10, 80, 8⟩] : List Assignment).map
          fun a => update_weight_ok a (2 * a.weight))).total_percentage
      = (calculate_category_gpa defaultScale
          ([⟨"Q1", 10, 80, 8⟩] : List Assignment)).total_percentage) :=
  ⟨by simp, by norm_num, by norm_num, by norm_num, by norm_num,
   (C10_weight_scaling_invariant defaultScale [⟨"Q1", 10, 80, 8⟩] 2
     (by simp) (by norm_num) (by norm_num) (by norm_num) (by norm_num)).1⟩

end GradeCalc
